import Mathlib

/-!
Verification of the context-and-failover orchestration layer of a Telegram
chat bot (`tg_bot_chat`).  The development shallowly embeds the Python
sources:

* `services/context_manager.py` — the Redis-backed rolling message store
  (`ChatMessage`, `add_message`, `get_context`, `trim_context`,
  `get_context_size`, `clear_context`);
* `services/ai_service.py` — the completion orchestrator (`AIService`,
  `generate_response`, `_format_context_messages`,
  `should_respond_to_message`);
* `handlers/message_handler.py` and `config/settings.py` — the pipeline
  wiring (`MessageHandler.__init__`, the configuration dataclasses).

Machine integers are modelled as `Int`/`Nat`; Redis list commands (`LPUSH`,
`LRANGE`, `LTRIM`, `LLEN`) are modelled with their documented index
semantics, including negative-index normalisation; the `datetime`
timestamps are modelled as natural numbers with a lossless decimal
rendering standing in for `isoformat`/`fromisoformat` (Python's pair is an
exact inverse at the serialised resolution).  The per-entry parse of the
store's read loop distinguishes the exception kinds the code catches
(`JSONDecodeError`/`KeyError`/`ValueError` — entry skipped) from the
`TypeError` it does not catch (valid JSON of the wrong shape or a
non-string timestamp — the whole read raises), so the read is
`Except`-valued; the asynchronous backend calls of `generate_response` are
modelled as oracle functions returning `Except`.
-/

namespace TgBot

/-! ### Python string primitives used by the sources -/

/-- Python's substring test `needle in hay` on `str`. -/
def pyIn (needle hay : String) : Bool :=
  decide (needle.data <:+: hay.data)

/-- Python's `str.lower()`. -/
def pyLower (s : String) : String :=
  ⟨s.data.map Char.toLower⟩

/-- Python's `str.strip(c)`: removes every leading and trailing occurrence
of the character `c`. -/
def pyStrip (c : Char) (s : String) : String :=
  ⟨((s.data.dropWhile (· == c)).reverse.dropWhile (· == c)).reverse⟩

/-- Python's `str.lstrip(c)`: removes every leading occurrence of `c`.
Used only to render the spec's words ("with any leading `@` stripped") for
comparison against the source. -/
def pyLStrip (c : Char) (s : String) : String :=
  ⟨s.data.dropWhile (· == c)⟩

/-- Python truthiness of an optional string: `None` and `""` are falsy. -/
def pyTruthy : Option String → Bool
  | none => false
  | some s => !s.data.isEmpty

/-- Python's `a or b` for an optional string `a` with default `b`. -/
def pyOrStr : Option String → String → String
  | some s, d => if s.data.isEmpty then d else s
  | none, d => d

/-! ### Redis list-command semantics

`LRANGE key start stop` and `LTRIM key start stop` share the same index
window semantics: negative indices count from the end of the list, the
start is clamped to the head, the stop is clamped to the last element, and
a crossed window yields the empty list. -/

/-- Redis index normalisation for a list of length `n`. -/
def redisNorm (n : Nat) (i : Int) : Int :=
  if i < 0 then (n : Int) + i else i

/-- The inclusive window `[start, stop]` of a list under Redis semantics,
shared by the models of `LRANGE` (read) and `LTRIM` (keep). -/
def redisSlice {α : Type} (l : List α) (start stop : Int) : List α :=
  let n := l.length
  let s := max (redisNorm n start) 0
  let e := min (redisNorm n stop) ((n : Int) - 1)
  if s ≤ e then (l.drop s.toNat).take (e - s + 1).toNat else []

/-! ### Timestamp serialisation

`add_message` stores `message.timestamp.isoformat()` and `get_context`
recovers it with `datetime.fromisoformat`, a pair of exact mutual inverses
at the serialised (microsecond) resolution.  We model the instant as a
natural number and the ISO-8601 rendering as its decimal string. -/

/-- Numeric value of a decimal digit character, `none` on anything else. -/
def digitVal? (c : Char) : Option Nat :=
  if '0'.toNat ≤ c.toNat ∧ c.toNat ≤ '9'.toNat then some (c.toNat - '0'.toNat)
  else none

/-- Big-endian decimal accumulator parse; fails on any non-digit. -/
def parseNatAux : Nat → List Char → Option Nat
  | acc, [] => some acc
  | acc, c :: cs =>
    match digitVal? c with
    | some d => parseNatAux (acc * 10 + d) cs
    | none => none

/-- Model of `datetime.fromisoformat` on the strings produced by the
model of `isoformat`: parses the serialised timestamp; fails (raising
`ValueError` in Python, `none` here) on a malformed string. -/
def fromisoformat (s : String) : Option Nat :=
  if s.data.isEmpty then none else parseNatAux 0 s.data

/-- Model of `datetime.isoformat`: the lossless decimal rendering of the
instant. -/
def isoformat (t : Nat) : String :=
  if t = 0 then "0" else ⟨((Nat.digits 10 t).map Nat.digitChar).reverse⟩

/-! ### The message record and the Store (`context_manager.py`) -/

/-- `ChatMessage` dataclass of `context_manager.py`. -/
structure ChatMessage where
  user_id : Int
  username : Option String
  message : String
  timestamp : Nat
  message_id : Int
deriving DecidableEq, Repr

/-- The per-message serialised record written by `add_message`:
`{user_id, username, message, timestamp: isoformat, message_id}`. -/
structure StoredRecord where
  user_id : Int
  username : Option String
  message : String
  timestamp : String
  message_id : Int
deriving DecidableEq, Repr

/-- A raw Redis list entry, classified by how the parse loop of
`get_context` behaves on it:
* `valid` — a JSON dict with the required keys and a string timestamp
  (the timestamp string itself may still fail `fromisoformat`, raising a
  caught `ValueError`);
* `malformed` — raises one of the exception kinds the loop catches:
  `json.JSONDecodeError` (bad JSON) or `KeyError` (missing key);
* `typeMismatch` — valid JSON of the wrong shape or type (e.g. the blob
  `123` or `[1]`, whose subscripting raises, or a dict whose `timestamp`
  field is a number, on which `fromisoformat` raises): this raises
  `TypeError`, which the loop's `except (json.JSONDecodeError, KeyError,
  ValueError)` does **not** catch, so the whole read call raises. -/
inductive RawEntry where
  | valid : StoredRecord → RawEntry
  | malformed : String → RawEntry
  | typeMismatch : String → RawEntry
deriving DecidableEq, Repr

/-- Serialisation performed by `add_message` (the `message_data` dict plus
`json.dumps`). -/
def serializeMessage (m : ChatMessage) : RawEntry :=
  RawEntry.valid ⟨m.user_id, m.username, m.message, isoformat m.timestamp, m.message_id⟩

/-- Outcome of one iteration of `get_context`'s parse loop on one raw
entry. -/
inductive EntryParse where
  | parsed : ChatMessage → EntryParse
  | skipped : EntryParse
  | aborted : String → EntryParse
deriving DecidableEq, Repr

/-- The parse performed inside `get_context`'s loop: `json.loads` plus
field extraction plus `datetime.fromisoformat`.  A caught
`JSONDecodeError`/`KeyError`/`ValueError` hits the `continue` (entry
skipped); an uncaught `TypeError` escapes the `except` clause and aborts
the read. -/
def parseEntry : RawEntry → EntryParse
  | RawEntry.malformed _ => EntryParse.skipped
  | RawEntry.typeMismatch e => EntryParse.aborted e
  | RawEntry.valid r =>
    match fromisoformat r.timestamp with
    | some t => EntryParse.parsed ⟨r.user_id, r.username, r.message, t, r.message_id⟩
    | none => EntryParse.skipped

/-- The parse loop of `get_context` over the retrieved window: collects
parsed messages in order, skips entries whose exception is caught, and
raises (in order) the first uncaught `TypeError`. -/
def readEntries : List RawEntry → Except String (List ChatMessage)
  | [] => Except.ok []
  | e :: es =>
    match parseEntry e with
    | EntryParse.parsed m => (readEntries es).map (fun ms => m :: ms)
    | EntryParse.skipped => readEntries es
    | EntryParse.aborted err => Except.error err

/-- The chat-scope keyspace of the Redis store: each chat id owns one list,
newest entry first (`LPUSH` prepends). -/
def Store : Type := Int → List RawEntry

/-- The empty store. -/
def Store.empty : Store := fun _ => []

/-- Pointwise update of one chat's list. -/
def Store.update (st : Store) (chat : Int) (l : List RawEntry) : Store :=
  fun c => if c = chat then l else st c

/-- `ContextManager.add_message`: serialises and `LPUSH`es onto the chat's
list (the 24-hour `EXPIRE` refresh concerns wall-clock retention only). -/
def addMessage (st : Store) (chat : Int) (m : ChatMessage) : Store :=
  Store.update st chat (serializeMessage m :: st chat)

/-- `ContextManager.get_context`: `LRANGE key 0 (limit-1)`, run the parse
loop over the window, and (when no uncaught exception occurred) reverse
into chronological order. -/
def getContext (st : Store) (chat : Int) (limit : Int) : Except String (List ChatMessage) :=
  (readEntries (redisSlice (st chat) 0 (limit - 1))).map List.reverse

/-- `ContextManager.clear_context`: deletes the chat's list. -/
def clearContext (st : Store) (chat : Int) : Store :=
  Store.update st chat []

/-- `ContextManager.get_context_size`: `LLEN` of the chat's list. -/
def getContextSize (st : Store) (chat : Int) : Int :=
  ((st chat).length : Int)

/-- `ContextManager.trim_context`: `LTRIM key 0 (max_size-1)`. -/
def trimContext (st : Store) (chat : Int) (maxSize : Int) : Store :=
  Store.update st chat (redisSlice (st chat) 0 (maxSize - 1))

/-! ### Configuration (`config/settings.py`) -/

/-- `AIConfig` dataclass. -/
structure AIConfig where
  api_key : String
  model : String
  provider : String
  base_url : Option String
deriving DecidableEq, Repr

/-- `TelegramConfig` dataclass. -/
structure TelegramConfig where
  bot_token : String
  bot_username : Option String
deriving DecidableEq, Repr

/-- `RedisConfig` dataclass. -/
structure RedisConfig where
  host : String
  port : Int
  password : Option String
  db : Int
deriving DecidableEq, Repr

/-- `BotConfig` dataclass. -/
structure BotConfig where
  base_prompt : String
  context_window_size : Int
  trigger_words : Option (List String)
deriving DecidableEq, Repr

/-- `Settings` dataclass. -/
structure Settings where
  telegram : TelegramConfig
  ai : AIConfig
  redis : RedisConfig
  bot : BotConfig
  fallback_ai : Option AIConfig
deriving DecidableEq, Repr

/-! ### The AI service (`services/ai_service.py`) -/

/-- The observable construction state of an `AsyncOpenAI` client as built
by `AIService._create_client`: the api key, and the base url only when the
configured one is truthy. -/
structure OpenAIClient where
  api_key : String
  base_url : Option String
deriving DecidableEq, Repr

/-- `AIService._create_client`. -/
def createClient (config : AIConfig) : OpenAIClient :=
  ⟨config.api_key, if pyTruthy config.base_url then config.base_url else none⟩

/-- `AIResponse` dataclass. -/
structure AIResponse where
  content : String
  tokens_used : Option Int
  model_used : Option String
deriving DecidableEq, Repr

/-- One role-tagged turn of the prompt sequence (an element of the
`messages` list of dicts built by `_format_context_messages`). -/
structure Turn where
  role : String
  content : String
deriving DecidableEq, Repr

/-- The state set up by `AIService.__init__`. -/
structure AIServiceState where
  client : OpenAIClient
  model : String
  provider : String
  fallback_client : Option OpenAIClient
  fallback_model : Option String
  base_prompt : String
  trigger_words : List String
deriving DecidableEq, Repr

/-- `AIService.__init__(ai_config, bot_config, fallback_ai_config)`: the
fallback client and model are set only when a fallback config is given. -/
def AIService.init (aiConfig : AIConfig) (botConfig : BotConfig)
    (fallbackConfig : Option AIConfig) : AIServiceState :=
  ⟨createClient aiConfig, aiConfig.model, aiConfig.provider,
    fallbackConfig.map createClient, fallbackConfig.map AIConfig.model,
    botConfig.base_prompt,
    match botConfig.trigger_words with
    | some ws => ws
    | none => []⟩

/-- The fixed instruction appended to the base prompt by
`_format_context_messages`. -/
def systemSuffix : String :=
  "\n\nIMPORTANT: When responding, do NOT include your username in your response. Simply provide a natural response without identifying yourself by name."

/-- The "Relevant user history" block appended to the system turn when a
per-user context is supplied. -/
def userHistoryBlock (userContext : List ChatMessage) : String :=
  "\n\nRelevant user history:\n" ++
    String.intercalate "\n"
      (userContext.map (fun m => pyOrStr m.username ("User") ++ ": " ++ m.message))

/-- The bot-authorship test of `_format_context_messages`:
`bot_username and msg.username and msg.username.lower() == bot_username.lower().strip("@")`. -/
def isBotMessage (botUsername : Option String) (msg : ChatMessage) : Bool :=
  match botUsername, msg.username with
  | some b, some u =>
    !b.data.isEmpty && !u.data.isEmpty && (pyLower u == pyStrip '@' (pyLower b))
  | _, _ => false

/-- `AIService._format_context_messages`. -/
def formatContextMessages (basePrompt : String) (context : List ChatMessage)
    (botUsername : Option String) (userContext : Option (List ChatMessage)) : List Turn :=
  let systemContent := basePrompt ++ systemSuffix
  let systemContent :=
    match userContext with
    | some uc => if uc.isEmpty then systemContent else systemContent ++ userHistoryBlock uc
    | none => systemContent
  ⟨"system", systemContent⟩ ::
    context.map (fun msg =>
      if isBotMessage botUsername msg then ⟨"assistant", msg.message⟩
      else ⟨"user", pyOrStr msg.username ("user_" ++ toString msg.user_id) ++ ": " ++ msg.message⟩)

/-- Content of the most recently emitted turn
(`messages[-1]["content"] if messages and "content" in messages[-1] else ""`). -/
def lastContent (ts : List Turn) : String :=
  match ts.getLast? with
  | some t => t.content
  | none => ""

/-- The prompt sequence `generate_response` actually sends: the formatted
context, plus one extra raw user turn unless the current message text
already occurs in the last emitted turn's content. -/
def requestMessages (basePrompt : String) (context : List ChatMessage)
    (currentMessage : String) (mentionedUsername : Option String)
    (userContext : Option (List ChatMessage)) : List Turn :=
  let messages := formatContextMessages basePrompt context mentionedUsername userContext
  if pyIn currentMessage (lastContent messages) then messages
  else messages ++ [⟨"user", currentMessage⟩]

/-- What a completion backend reports on success: `choices[0].message.content`
(possibly `None`) and `usage.total_tokens` (possibly absent). -/
structure BackendResp where
  content : Option String
  total_tokens : Option Int
deriving DecidableEq, Repr

/-- The error reply assembled by `generate_response`'s outer handler. -/
def errorReplyText (e : String) : String :=
  "Произошла ошибка при обработке запроса: " ++ e

/-- The fixed reply substituted for falsy backend content. -/
def emptyContentReply : String :=
  "Извините, не могу сформировать ответ."

/-- Extraction of an `AIResponse` from a successful backend response:
`content or "Извините, ..."`, the token count, and the model that answered. -/
def extractResponse (resp : BackendResp) (modelUsed : Option String) : AIResponse :=
  ⟨(match resp.content with
    | some c => if c.data.isEmpty then emptyContentReply else c
    | none => emptyContentReply),
    resp.total_tokens, modelUsed⟩

/-- Result of one `generate_response` run together with how many times each
backend was invoked (observable through the mocked clients in the repo's
test suite). -/
structure GenOutcome where
  response : AIResponse
  primary_calls : Nat
  fallback_calls : Nat
deriving DecidableEq, Repr

/-- `AIService.generate_response`, with the two asynchronous
`chat.completions.create` calls modelled as oracles returning `Except`.
The primary backend is called once; on its failure, if no fallback client
is configured the exception reaches the outer handler, otherwise the
fallback backend is called once; any exception of the second call reaches
the outer handler, which converts it into a normal error reply — so the
function is total and never propagates an exception. -/
def generateResponse (svc : AIServiceState)
    (primaryCall : List Turn → Except String BackendResp)
    (fallbackCall : List Turn → Except String BackendResp)
    (context : List ChatMessage) (currentMessage : String)
    (mentionedUsername : Option String) (userContext : Option (List ChatMessage)) :
    GenOutcome :=
  let messages :=
    requestMessages svc.base_prompt context currentMessage mentionedUsername userContext
  match primaryCall messages with
  | Except.ok resp => ⟨extractResponse resp (some svc.model), 1, 0⟩
  | Except.error e =>
    match svc.fallback_client with
    | none => ⟨⟨errorReplyText e, none, none⟩, 1, 0⟩
    | some _ =>
      match fallbackCall messages with
      | Except.ok resp => ⟨extractResponse resp svc.fallback_model, 1, 1⟩
      | Except.error e2 => ⟨⟨errorReplyText e2, none, none⟩, 1, 1⟩

/-- `AIService.should_respond_to_message`. -/
def shouldRespondToMessage (triggerWords : List String) (message : String)
    (botUsername : Option String) : Bool :=
  let messageLower := pyLower message
  (match botUsername with
   | some b => !b.data.isEmpty && pyIn (pyLower b) messageLower
   | none => false) ||
  triggerWords.any (fun w => pyIn (pyLower w) messageLower)

/-- Following the spec's words (§4.2), for comparison with the source:
responds when the bot display name, with any leading `@` stripped, appears
case-insensitively in the message, or a trigger word appears. -/
def specShouldRespond (triggerWords : List String) (message : String)
    (botName : Option String) : Bool :=
  let messageLower := pyLower message
  (match botName with
   | some b => !b.data.isEmpty && pyIn (pyLStrip '@' (pyLower b)) messageLower
   | none => false) ||
  triggerWords.any (fun w => pyIn (pyLower w) messageLower)

/-- Following the spec's words (§4.3 step 3), for comparison with the
source: a history message is bot-authored when its display name,
case-insensitive and with a leading `@` stripped, equals the bot display
name normalised the same way. -/
def specIsBotAuthored (botName : String) (displayName : String) : Bool :=
  pyLStrip '@' (pyLower displayName) == pyLStrip '@' (pyLower botName)

/-! ### The message-handling pipeline (`handlers/message_handler.py`) -/

/-- The constructor state of `MessageHandler` that the claims observe. -/
structure MessageHandlerState where
  settings : Settings
  ai_service : AIServiceState
deriving DecidableEq, Repr

/-- `MessageHandler.__init__`: builds its `AIService` from the primary AI
config and bot config only — the `fallback_ai_config` parameter is left at
its default `None`. -/
def MessageHandler.init (settings : Settings) : MessageHandlerState :=
  ⟨settings, AIService.init settings.ai settings.bot none⟩

/-! ### Sample values used by concrete evaluations and witnesses -/

/-- A sample chat message. -/
def sampleMsgA : ChatMessage := ⟨1, some ("alice"), "hi there", 1, 10⟩

/-- A second sample chat message, inserted after `sampleMsgA`. -/
def sampleMsgB : ChatMessage := ⟨2, some ("bob"), "hello", 2, 11⟩

/-- A sample insertion history, oldest first. -/
def sampleHist : List ChatMessage := [sampleMsgA, sampleMsgB]

/-- The store obtained by inserting `sampleHist` in order into one chat
(`LPUSH` leaves the newest entry first). -/
def sampleStore : Store := fun _ => (sampleHist.map serializeMessage).reverse

/-- A sample well-formed serialised record. -/
def sampleRecA : StoredRecord := ⟨1, some ("alice"), "hi there", "1", 10⟩

/-- A second sample record, with an absent display name. -/
def sampleRecB : StoredRecord := ⟨2, none, "yo", "2", 11⟩

/-- A store whose single chat list holds one raw entry. -/
def oneEntryStore : Store := fun _ => [RawEntry.malformed ("x")]

/-- A store whose single chat list holds two well-formed entries. -/
def twoEntryStore : Store :=
  fun _ => [RawEntry.valid sampleRecA, RawEntry.valid sampleRecB]

/-- A store holding a malformed-but-caught blob between two well-formed
entries. -/
def corruptStore : Store :=
  fun _ => [RawEntry.valid sampleRecA, RawEntry.malformed ("bad json"),
    RawEntry.valid sampleRecB]

/-- A store holding a valid-JSON non-dict blob (raising an uncaught
`TypeError` when subscripted) between two well-formed entries. -/
def typeErrStore : Store :=
  fun _ => [RawEntry.valid sampleRecA,
    RawEntry.typeMismatch ("int object is not subscriptable"),
    RawEntry.valid sampleRecB]

/-- A sample primary AI configuration. -/
def sampleAIConfig : AIConfig := ⟨"key", "gpt-4o-mini", "openai", none⟩

/-- A sample secondary (fallback) AI configuration. -/
def sampleFallbackConfig : AIConfig := ⟨"fb-key", "fallback_model", "openai", none⟩

/-- A sample bot configuration. -/
def sampleBotConfig : BotConfig := ⟨"You are a helpful assistant.", 50, some (["bot"])⟩

/-- The AI service constructed with a configured fallback backend. -/
def sampleService : AIServiceState :=
  AIService.init sampleAIConfig sampleBotConfig (some sampleFallbackConfig)

/-! ### Helper lemmas -/

theorem pyIn_iff (needle hay : String) :
    pyIn needle hay = true ↔ needle.data <:+: hay.data := by
  simp [pyIn]

theorem pyIn_append_self (a b : String) : pyIn b (a ++ b) = true := by
  rw [pyIn_iff, String.data_append]
  exact (List.suffix_append a.data b.data).isInfix

theorem exists_getLast?_cons {α : Type} (a : α) (l : List α) :
    ∃ x, (a :: l).getLast? = some x := by
  induction l generalizing a with
  | nil => exact ⟨a, rfl⟩
  | cons b l ih => exact (ih b).imp (fun x hx => by rw [List.getLast?_cons_cons]; exact hx)

theorem redisSlice_take {α : Type} (l : List α) (N : Int) (hN : 1 ≤ N) :
    redisSlice l 0 (N - 1) = l.take N.toNat := by
  unfold redisSlice redisNorm
  have h0 : ¬ ((0 : Int) < 0) := by omega
  have hstop : ¬ (N - 1 < 0) := by omega
  simp only [if_neg h0, if_neg hstop]
  by_cases hl : l.length = 0
  · have hnil : l = [] := List.length_eq_zero.mp hl
    subst hnil
    have : ¬ (max (0 : Int) 0 ≤ min (N - 1) ((([] : List α).length : Int) - 1)) := by
      simp only [List.length_nil, Nat.cast_zero]; omega
    rw [if_neg this]
    simp
  · have hl1 : 1 ≤ (l.length : Int) := by
      have := Nat.one_le_iff_ne_zero.mpr hl
      exact_mod_cast this
    have hcond : max (0 : Int) 0 ≤ min (N - 1) ((l.length : Int) - 1) := by omega
    rw [if_pos hcond]
    by_cases hNl : N ≤ (l.length : Int)
    · have hx : (min (N - 1) ((l.length : Int) - 1) - max (0 : Int) 0 + 1).toNat = N.toNat := by
        omega
      have hs : (max (0 : Int) 0).toNat = 0 := by omega
      rw [hx, hs, List.drop_zero]
    · have hx : (min (N - 1) ((l.length : Int) - 1) - max (0 : Int) 0 + 1).toNat = l.length := by
        omega
      have hs : (max (0 : Int) 0).toNat = 0 := by omega
      have hy : l.length ≤ N.toNat := by omega
      rw [hx, hs, List.drop_zero, List.take_length, List.take_of_length_le hy]

theorem take_reverse_eq_drop {α : Type} (l : List α) (k : Nat) :
    l.reverse.take k = (l.drop (l.length - k)).reverse := by
  calc l.reverse.take k
      = ((l.reverse.take k).reverse).reverse := by rw [List.reverse_reverse]
    _ = ((l.reverse.reverse.drop (l.reverse.length - k))).reverse := by
        rw [List.reverse_take]
    _ = (l.drop (l.length - k)).reverse := by rw [List.reverse_reverse, List.length_reverse]

theorem digitVal?_digitChar (d : Nat) (hd : d < 10) :
    digitVal? (Nat.digitChar d) = some d := by
  interval_cases d <;> decide

theorem parseNatAux_append (acc : Nat) (xs ys : List Char) :
    parseNatAux acc (xs ++ ys) =
      match parseNatAux acc xs with
      | some v => parseNatAux v ys
      | none => none := by
  induction xs generalizing acc with
  | nil => simp [parseNatAux]
  | cons c cs ih =>
    simp only [List.cons_append, parseNatAux]
    cases digitVal? c with
    | none => rfl
    | some d => exact ih _

theorem parse_digits_reverse (ds : List Nat) (acc : Nat) (h : ∀ d ∈ ds, d < 10) :
    parseNatAux acc ((ds.map Nat.digitChar).reverse) =
      some (acc * 10 ^ ds.length + Nat.ofDigits 10 ds) := by
  induction ds generalizing acc with
  | nil => simp [parseNatAux, Nat.ofDigits_nil]
  | cons d ds ih =>
    have hd : d < 10 := h d (by simp)
    have hds : ∀ x ∈ ds, x < 10 := fun x hx => h x (by simp [hx])
    simp only [List.map_cons, List.reverse_cons, parseNatAux_append]
    rw [ih acc hds]
    simp only [parseNatAux, digitVal?_digitChar d hd]
    rw [Nat.ofDigits_cons]
    congr 1
    simp only [List.length_cons, pow_succ]
    ring

theorem fromisoformat_isoformat (t : Nat) : fromisoformat (isoformat t) = some t := by
  by_cases h : t = 0
  · subst h; decide
  · unfold isoformat
    rw [if_neg h]
    unfold fromisoformat
    have hne : Nat.digits 10 t ≠ [] := Nat.digits_ne_nil_iff_ne_zero.mpr h
    have hdata : (String.mk (((Nat.digits 10 t).map Nat.digitChar).reverse)).data =
        ((Nat.digits 10 t).map Nat.digitChar).reverse := rfl
    rw [hdata]
    have hempty : (((Nat.digits 10 t).map Nat.digitChar).reverse).isEmpty = false := by
      simp [List.isEmpty_iff, hne]
    rw [hempty]
    simp only [Bool.false_eq_true, if_false]
    rw [parse_digits_reverse _ 0 (fun d hd => Nat.digits_lt_base (by norm_num) hd)]
    simp [Nat.ofDigits_digits]

theorem parseEntry_serializeMessage (m : ChatMessage) :
    parseEntry (serializeMessage m) = EntryParse.parsed m := by
  simp [serializeMessage, parseEntry, fromisoformat_isoformat]

theorem readEntries_map_serialize (l : List ChatMessage) :
    readEntries (l.map serializeMessage) = Except.ok l := by
  induction l with
  | nil => rfl
  | cons m l ih => simp [readEntries, parseEntry_serializeMessage, ih, Except.map]

/-! ### Claim theorems -/

/-- C4, counterexample: the claim quantifies over every maximum size `N`,
but at `N = 0` the code issues `LTRIM key 0 -1`, whose negative stop index
denotes the last element, so the whole one-entry history survives and
`get_context_size ≤ 0` fails. -/
theorem trimContext_zero_counterexample :
    getContextSize (trimContext oneEntryStore 0 0) 0 = 1 ∧
    ¬ getContextSize (trimContext oneEntryStore 0 0) 0 ≤ 0 := by
  decide

/-- C4 (amended): for every chat scope, stored history, and maximum size
`N ≥ 1`, after `trim_context(chat_id, N)` the store satisfies
`get_context_size(chat_id) ≤ N`, and exactly the `N` most-recently-inserted
entries (the first `N` of the newest-first internal list) are retained. -/
theorem trimContext_bound (st : Store) (chat : Int) (N : Int) (hN : 1 ≤ N) :
    getContextSize (trimContext st chat N) chat ≤ N ∧
    (trimContext st chat N) chat = (st chat).take N.toNat := by
  have hupd : (trimContext st chat N) chat = redisSlice (st chat) 0 (N - 1) := by
    simp [trimContext, Store.update]
  constructor
  · unfold getContextSize
    rw [hupd, redisSlice_take _ _ hN]
    have hlen : (List.take N.toNat (st chat)).length ≤ N.toNat := by
      simp [List.length_take]
    calc ((List.take N.toNat (st chat)).length : Int)
        ≤ (N.toNat : Int) := by exact_mod_cast hlen
      _ = N := Int.toNat_of_nonneg (by omega)
  · rw [hupd, redisSlice_take _ _ hN]

/-- C4, witness for `trimContext_bound`. -/
theorem trimContext_bound_witness :
    (1 : Int) ≤ 2 ∧
    (getContextSize (trimContext oneEntryStore 0 2) 0 ≤ 2 ∧
     (trimContext oneEntryStore 0 2) 0 = (oneEntryStore 0).take (2 : Int).toNat) :=
  ⟨by decide, trimContext_bound oneEntryStore 0 2 (by decide)⟩

/-- C5, counterexample: the claim quantifies over every limit, but at
`limit = 0` the code issues `LRANGE key 0 -1`, which returns the entire
list, so "at most `limit` messages" fails on a two-entry history. -/
theorem getContext_zero_counterexample :
    (getContext twoEntryStore 0 0).map List.length = Except.ok 2 ∧ ¬ ((2 : Nat) ≤ 0) :=
  ⟨rfl, by decide⟩

/-- C5 (amended): for every stored history (kept newest-insert-first
internally, as `add_message` produces) and every limit ≥ 1,
`get_context(chat_id, limit)` returns at most `limit` of the most-recent
messages, in chronological order: it is exactly the suffix of the
insertion sequence consisting of the last `limit` insertions, oldest
first. -/
theorem getContext_chronological (hs : List ChatMessage) (st : Store) (chat : Int)
    (limit : Int) (hl : 1 ≤ limit)
    (hst : st chat = (hs.map serializeMessage).reverse) :
    getContext st chat limit = Except.ok (hs.drop (hs.length - limit.toNat)) ∧
    (hs.drop (hs.length - limit.toNat)).length ≤ limit.toNat := by
  constructor
  · unfold getContext
    rw [hst, redisSlice_take _ _ hl, take_reverse_eq_drop, List.length_map,
      ← List.map_drop, ← List.map_reverse, readEntries_map_serialize]
    simp [Except.map, List.reverse_reverse]
  · simp only [List.length_drop]
    omega

/-- C5, witness for `getContext_chronological`. -/
theorem getContext_chronological_witness :
    (1 : Int) ≤ 1 ∧
    sampleStore 0 = (sampleHist.map serializeMessage).reverse ∧
    (getContext sampleStore 0 1 =
      Except.ok (sampleHist.drop (sampleHist.length - (1 : Int).toNat)) ∧
     (sampleHist.drop (sampleHist.length - (1 : Int).toNat)).length ≤ (1 : Int).toNat) :=
  ⟨by decide, rfl, getContext_chronological sampleHist sampleStore 0 1 (by decide) rfl⟩

/-- C6: round-trip — serialising a `ChatMessage` as `add_message` does and
parsing it back as `get_context` does yields an equal message: same
`user_id`, `username`, `message`, `timestamp` (to the serialised ISO-8601
resolution, which is lossless), and `message_id`. -/
theorem serializeMessage_roundtrip (m : ChatMessage) :
    parseEntry (serializeMessage m) = EntryParse.parsed m :=
  parseEntry_serializeMessage m

/-- C9, evaluation at the failing input: the parse loop catches only
`json.JSONDecodeError`, `KeyError` and `ValueError`, so a stored entry
that is valid JSON but not a dict (here modelled between two well-formed
entries) raises an uncaught `TypeError` and the whole read aborts —
refuting "a malformed entry never causes the read operation itself to
fail"; a malformed entry of a caught kind in the same position is indeed
silently skipped, as the claim and the spec describe. -/
theorem getContext_aborts_on_uncaught_type_error :
    getContext typeErrStore 0 3 = Except.error ("int object is not subscriptable") ∧
    getContext corruptStore 0 3 =
      Except.ok [⟨2, none, "yo", 2, 11⟩, ⟨1, some ("alice"), "hi there", 1, 10⟩] :=
  ⟨rfl, rfl⟩

/-- C1, evaluation at the failing input: primary backend raising on every
attempt, secondary configured and succeeding on its first attempt.  The
result's content and `model_used` do come from the secondary, but the
primary is attempted exactly once — `generate_response` has no retry loop,
although the repository's own test suite asserts
`mock_ai_client.chat.completions.create.call_count == 3`. -/
theorem generateResponse_single_primary_attempt :
    generateResponse sampleService (fun _ => Except.error ("Primary failed"))
        (fun _ => Except.ok ⟨some ("Fallback response"), some 10⟩) [] ("help") none none =
      ⟨⟨"Fallback response", some 10, some ("fallback_model")⟩, 1, 1⟩ ∧
    (1 : Nat) ≠ 3 :=
  ⟨rfl, by decide⟩

/-- C2: when the primary call fails and the configured fallback call also
fails, the orchestrator returns a normal `AIResponse` (the function is
total — no exception escapes) whose content is the user-safe error text
embedding the last underlying error's description. -/
theorem generateResponse_both_fail (svc : AIServiceState)
    (primaryCall fallbackCall : List Turn → Except String BackendResp)
    (context : List ChatMessage) (currentMessage : String)
    (mentionedUsername : Option String) (userContext : Option (List ChatMessage))
    (e1 e2 : String)
    (hfb : svc.fallback_client.isSome = true)
    (hp : primaryCall (requestMessages svc.base_prompt context currentMessage
      mentionedUsername userContext) = Except.error e1)
    (hf : fallbackCall (requestMessages svc.base_prompt context currentMessage
      mentionedUsername userContext) = Except.error e2) :
    generateResponse svc primaryCall fallbackCall context currentMessage
      mentionedUsername userContext = ⟨⟨errorReplyText e2, none, none⟩, 1, 1⟩ ∧
    pyIn e2 (generateResponse svc primaryCall fallbackCall context currentMessage
      mentionedUsername userContext).response.content = true := by
  obtain ⟨fc, hfc⟩ := Option.isSome_iff_exists.mp hfb
  have key : generateResponse svc primaryCall fallbackCall context currentMessage
      mentionedUsername userContext = ⟨⟨errorReplyText e2, none, none⟩, 1, 1⟩ := by
    simp only [generateResponse]
    rw [hp, hfc, hf]
  refine ⟨key, ?_⟩
  rw [key]
  exact pyIn_append_self _ e2

/-- C2, witness for `generateResponse_both_fail`. -/
theorem generateResponse_both_fail_witness :
    sampleService.fallback_client.isSome = true ∧
    ((fun _ => Except.error ("boom1") : List Turn → Except String BackendResp)
      (requestMessages sampleService.base_prompt [] ("hi") none none) =
        Except.error ("boom1")) ∧
    ((fun _ => Except.error ("boom2") : List Turn → Except String BackendResp)
      (requestMessages sampleService.base_prompt [] ("hi") none none) =
        Except.error ("boom2")) ∧
    (generateResponse sampleService
        (fun _ => Except.error ("boom1")) (fun _ => Except.error ("boom2"))
        [] ("hi") none none = ⟨⟨errorReplyText ("boom2"), none, none⟩, 1, 1⟩ ∧
     pyIn ("boom2") (generateResponse sampleService
        (fun _ => Except.error ("boom1")) (fun _ => Except.error ("boom2"))
        [] ("hi") none none).response.content = true) :=
  ⟨rfl, rfl, rfl,
    generateResponse_both_fail sampleService
      (fun _ => Except.error ("boom1")) (fun _ => Except.error ("boom2"))
      [] ("hi") none none ("boom1") ("boom2") rfl rfl rfl⟩

/-- C3, counterexample: the claim says the bot display name is matched
with any leading `@` stripped, but `should_respond_to_message` performs no
stripping: with bot name `"@test_bot"` and message `"test_bot here"` the
spec-worded rule fires while the code returns `false`. -/
theorem shouldRespond_no_strip_counterexample :
    shouldRespondToMessage [] ("test_bot here") (some ("@test_bot")) = false ∧
    specShouldRespond [] ("test_bot here") (some ("@test_bot")) = true := by
  decide

/-- C3 (amended): `should_respond_to_message` returns true iff the bot
username is non-empty and occurs — exactly as configured, with no `@`
stripping — case-insensitively in the message, or some configured trigger
word occurs case-insensitively in the message; the claim's concrete
examples hold, and the empty message triggers nothing. -/
theorem shouldRespond_characterization :
    (∀ (tw : List String) (msg b : String),
      shouldRespondToMessage tw msg (some b) = true ↔
        ((b.data ≠ [] ∧ (pyLower b).data <:+: (pyLower msg).data) ∨
         ∃ w ∈ tw, (pyLower w).data <:+: (pyLower msg).data)) ∧
    (∀ (tw : List String) (msg : String),
      shouldRespondToMessage tw msg none = true ↔
        ∃ w ∈ tw, (pyLower w).data <:+: (pyLower msg).data) ∧
    shouldRespondToMessage [] ("hello @test_bot") (some ("test_bot")) = true ∧
    shouldRespondToMessage ["test", "bot"] ("hey bot help me") (some ("other_bot")) = true ∧
    shouldRespondToMessage ["test", "bot"] ("just random text") (some ("test_bot")) = false ∧
    (∀ (b : Option String), shouldRespondToMessage ["test", "bot"] ("") b = false) := by
  refine ⟨?_, ?_, by decide, by decide, by decide, ?_⟩
  · intro tw msg b
    simp [shouldRespondToMessage, pyIn, List.any_eq_true, List.isEmpty_iff]
  · intro tw msg
    simp [shouldRespondToMessage, pyIn, List.any_eq_true]
  · intro b
    cases b with
    | none => decide
    | some s =>
      simp only [shouldRespondToMessage, pyIn, pyLower]
      simp [List.isEmpty_iff, List.map_eq_nil_iff]

/-- C7, counterexample: the claim says both display names are normalised
the same way (leading `@` stripped, case-insensitive), but the code strips
`@` only from the bot name; a history message authored as `"@bot"` with
bot name `"bot"` is spec-classified as bot-authored, yet the code emits it
as a `"user"` turn with a name prefix instead of an `"assistant"` turn. -/
theorem formatContext_no_strip_counterexample :
    (formatContextMessages ("P") [⟨5, some ("@bot"), "hi", 0, 1⟩]
        (some ("bot")) none).getLast? = some ⟨"user", "@bot: hi"⟩ ∧
    specIsBotAuthored ("bot") ("@bot") = true := by
  decide

/-- C7 (amended): prompt assembly classifies a history message as
bot-authored exactly when the bot name is non-empty, the message has a
non-empty display name, and the display name lower-cased — taken verbatim,
not stripped — equals the bot name lower-cased with `@` stripped from both
ends; bot-authored messages become `"assistant"` turns with the raw body,
all others `"user"` turns with the body prefixed by the display name or
the `"user_<author_id>"` fallback. -/
theorem formatContext_classification (p : String) (ctx : List ChatMessage) (b : String)
    (uc : Option (List ChatMessage)) (i : Nat) (m : ChatMessage)
    (hm : ctx[i]? = some m) :
    (formatContextMessages p ctx (some b) uc)[i + 1]? =
      some (if isBotMessage (some b) m then ⟨"assistant", m.message⟩
            else ⟨"user", pyOrStr m.username ("user_" ++ toString m.user_id) ++ ": " ++ m.message⟩) ∧
    (isBotMessage (some b) m = true ↔
      b.data ≠ [] ∧ ∃ u, m.username = some u ∧ u.data ≠ [] ∧
        pyLower u = pyStrip '@' (pyLower b)) := by
  constructor
  · simp only [formatContextMessages]
    rw [List.getElem?_cons_succ, List.getElem?_map, hm]
    rfl
  · unfold isBotMessage
    cases hm' : m.username with
    | none => simp
    | some u =>
      simp [List.isEmpty_iff, and_assoc]

/-- C7, witness for `formatContext_classification`. -/
theorem formatContext_classification_witness :
    ([sampleMsgA][0]? = some sampleMsgA) ∧
    ((formatContextMessages ("P") [sampleMsgA] (some ("alice")) none)[0 + 1]? =
      some (if isBotMessage (some ("alice")) sampleMsgA
            then ⟨"assistant", sampleMsgA.message⟩
            else ⟨"user", pyOrStr sampleMsgA.username
              ("user_" ++ toString sampleMsgA.user_id) ++ ": " ++ sampleMsgA.message⟩) ∧
     (isBotMessage (some ("alice")) sampleMsgA = true ↔
      ("alice").data ≠ [] ∧ ∃ u, sampleMsgA.username = some u ∧ u.data ≠ [] ∧
        pyLower u = pyStrip '@' (pyLower ("alice")))) :=
  ⟨rfl, formatContext_classification ("P") [sampleMsgA] ("alice") none 0 sampleMsgA rfl⟩

/-- C8: `generate_response` appends the current incoming message as one
final raw `"user"` turn exactly when the most recently emitted turn's
content does not already contain the current message text as a substring;
otherwise the formatted context is sent unchanged. -/
theorem requestMessages_dedup (p : String) (ctx : List ChatMessage) (cur : String)
    (mu : Option String) (uc : Option (List ChatMessage)) :
    ∃ last, (formatContextMessages p ctx mu uc).getLast? = some last ∧
      requestMessages p ctx cur mu uc =
        (if pyIn cur last.content = true then formatContextMessages p ctx mu uc
         else formatContextMessages p ctx mu uc ++ [⟨"user", cur⟩]) := by
  cases h : formatContextMessages p ctx mu uc with
  | nil => exact absurd h (by simp [formatContextMessages])
  | cons a l =>
    obtain ⟨x, hx⟩ := exists_getLast?_cons a l
    refine ⟨x, hx, ?_⟩
    simp only [requestMessages]
    rw [h]
    have hc : lastContent (a :: l) = x.content := by simp [lastContent, hx]
    rw [hc]

/-- C10: the message-handling pipeline constructs its `AIService` from the
primary AI config and bot config only, so its orchestrator has no fallback
client or model, and no run of `generate_response` through it ever invokes
a secondary backend — regardless of `Settings.fallback_ai`. -/
theorem messageHandler_no_fallback (settings : Settings) :
    (MessageHandler.init settings).ai_service.fallback_client = none ∧
    (MessageHandler.init settings).ai_service.fallback_model = none ∧
    ∀ (primaryCall fallbackCall : List Turn → Except String BackendResp)
      (context : List ChatMessage) (currentMessage : String)
      (mentionedUsername : Option String) (userContext : Option (List ChatMessage)),
      (generateResponse (MessageHandler.init settings).ai_service primaryCall
        fallbackCall context currentMessage mentionedUsername userContext).fallback_calls = 0 := by
  refine ⟨rfl, rfl, ?_⟩
  intro pc fc ctx cur mu uc
  cases hpc : pc (requestMessages (MessageHandler.init settings).ai_service.base_prompt
      ctx cur mu uc) with
  | ok r => simp [generateResponse, hpc]
  | error e =>
    simp only [generateResponse, hpc]
    rfl

end TgBot
